import Mathlib

/-!
Verification development for the `datatools` repository
(`production_checker/production_checker.py` and `cogcc_checker/cogcc_checker.py`).

The repository's gap-detection core works on a pandas DataFrame whose rows
each represent one calendar month.  We embed that data shallowly:

* a calendar month is an absolute month index `m : Nat`, standing for
  year `m / 12` and month-of-year `m % 12 + 1` (the code's dates in the
  grouped timeline are always the first day of a month, so a month index
  plus the calendar utilities below determine every date the code builds);
* a calendar date is a `(year, month, day)` structure, with the rata-die
  ordinal embedding pandas Timestamp subtraction (`.dt.days`);
* a row of the grouped timeline (`prod_df`) is a `TRow`; column values that
  Python reads for truthiness (`any_active`, `any_shutin`) are kept as `Int`,
  matching the dynamic typing of DataFrame columns (booleans are stored as
  0/1; the optional annotation feature can overwrite these columns with
  integer running counters);
* a pandas NaN/None cell in the days-produced data is `Option.none`;
* Python code that raises is embedded in `Except String`.

The timeline-building pipeline as written fails on every input: line 105
applies `first_day_of_month` to the whole date column, and a pandas
`Series` has no `.year` attribute (when a days column is configured,
lines 153-157 and line 183 additionally misuse the pandas API).  That
unconditional failure is embedded as `standardize_dates` /
`group_by_month_aswritten`.  Separately, `group_by_month` models the
element-wise aggregation the pipeline intends; it backs only those claims
whose conclusions do not depend on that failure (frame preservation and
configuration equivalence).  Pure-Python behaviour (arithmetic, control
flow, `datetime` semantics) is embedded exactly.
-/

namespace DataTools

/-! ## Calendar utilities (production_checker.py lines 606-630, calendar.monthrange) -/

/-- Embeds `calendar.isleap`, as used by `calendar.monthrange`. -/
def is_leap_year (y : Nat) : Bool :=
  y % 4 == 0 && (y % 100 != 0 || y % 400 == 0)

/-- Embeds `get_days_in_month` (production_checker.py lines 621-630):
the number of days of month `mo` (1..12) of year `y`, via `monthrange`. -/
def get_days_in_month (y mo : Nat) : Nat :=
  if mo == 2 then (if is_leap_year y then 29 else 28)
  else if mo == 4 || mo == 6 || mo == 9 || mo == 11 then 30
  else 31

/-- Year of an absolute month index. -/
def yearOf (m : Nat) : Nat := m / 12

/-- Month-of-year (1..12) of an absolute month index. -/
def monthOf (m : Nat) : Nat := m % 12 + 1

/-- Days in the month denoted by an absolute month index. -/
def daysInMonthIdx (m : Nat) : Nat := get_days_in_month (yearOf m) (monthOf m)

/-- A calendar date, as built by `datetime(year, month, day)`. -/
structure Date where
  year : Nat
  month : Nat
  day : Nat
deriving Repr, DecidableEq

/-- Embeds `first_day_of_month` (production_checker.py lines 606-610) applied to
the date of an absolute month index. -/
def first_day_of_month (m : Nat) : Date :=
  { year := yearOf m, month := monthOf m, day := 1 }

/-- Embeds `last_day_of_month` (production_checker.py lines 613-618), and the
date built by cogcc_checker's `get_last_day` (lines 171-177). -/
def last_day_of_month (m : Nat) : Date :=
  { year := yearOf m, month := monthOf m, day := daysInMonthIdx m }

/-- Total days of the months `1..mo` of year `y`. -/
def daysUpto (y : Nat) : Nat → Nat
  | 0 => 0
  | mo + 1 => daysUpto y mo + get_days_in_month y (mo + 1)

/-- Rata-die ordinal of a date (for years at least 1): 365 days per full
year before `d.year`, one extra day for each leap year strictly before
`d.year`, plus the days of the finished months and the day of month.
Differences of ordinals embed
`(end_date - start_date).dt.days` of pandas Timestamps. -/
def toOrdinal (d : Date) : Int :=
  365 * ((d.year : Int) - 1)
    + (((d.year : Int) - 1) / 4 - ((d.year : Int) - 1) / 100 + ((d.year : Int) - 1) / 400)
    + (daysUpto d.year (d.month - 1) : Int) + (d.day : Int)

/-- Embeds subtraction of two pandas Timestamps, in days (`.dt.days`). -/
def date_sub_days (a b : Date) : Int := toOrdinal a - toOrdinal b

/-- Calendar order on dates (lexicographic year, month, day). -/
def dateLe (a b : Date) : Prop :=
  a.year < b.year ∨ (a.year = b.year ∧ (a.month < b.month ∨ (a.month = b.month ∧ a.day ≤ b.day)))

instance (a b : Date) : Decidable (dateLe a b) := by
  unfold dateLe; infer_instance

/-! ## Configuration and the grouped timeline rows -/

/-- The `shutin_codes` argument of `ProductionChecker.__init__` as the caller
passes it: a single string, a list of strings, or `None`. -/
inductive ShutinCodesArg where
  | str (s : String)
  | list (l : List String)
  | noneArg
deriving Repr, DecidableEq

/-- Embeds lines 69-71 of production_checker.py: a single string is wrapped
into a one-element list; a list and `None` are stored as given. -/
def normalize_shutin_codes : ShutinCodesArg → Option (List String)
  | .str s => some [s]
  | .list l => some l
  | .noneArg => none

/-- Configuration of a `ProductionChecker` after `__init__` stored it
(production_checker.py lines 62-72).  Column arguments are `Option String`
(a `None` column argument means the column is not configured). -/
structure Config where
  date_col : String
  oil_prod_col : Option String
  gas_prod_col : Option String
  days_produced_col : Option String
  status_col : Option String
  shutin_codes : Option (List String)
  oil_prod_min : Int
  gas_prod_min : Int
deriving Repr, DecidableEq

/-- Embeds the property `is_configured_shutin` (lines 75-80). -/
def is_configured_shutin (cfg : Config) : Bool :=
  cfg.shutin_codes.isSome && cfg.status_col.isSome

/-- Embeds the property `is_configured_production` (lines 82-88). -/
def is_configured_production (cfg : Config) : Bool :=
  cfg.oil_prod_col.isSome || cfg.gas_prod_col.isSome

/-- Embeds the property `is_configured_days_produced` (lines 90-96). -/
def is_configured_days_produced (cfg : Config) : Bool :=
  cfg.days_produced_col.isSome

/-- Python truthiness of a dynamically typed DataFrame cell holding a number
(a stored boolean is 0 or 1): nonzero is truthy. -/
def truthy (n : Int) : Bool := n != 0

/-- One row of the grouped monthly timeline `prod_df` (the output of
`group_by_month`).  `month` is the absolute month index of the row's
`date_col` value (always a first-of-month date); `daysProducing` is the
`max_days_producing` column (`none` embeds NaN: no days data reported that
month), `daysNotProducing` the `min_days_not_producing` column. -/
structure TRow where
  month : Nat
  anyActive : Int
  anyShutin : Int
  numActive : Int
  numShutin : Int
  oilTotal : Int
  gasTotal : Int
  daysProducing : Option Int
  daysNotProducing : Int
deriving Repr, DecidableEq

/-- Embeds lines 318-320 of `gaps_by_production_threshold` and the identical
lines 418-420 of `gaps_by_producing_days`: `is_shutin` is `False` unless
shut-in checking is configured, in which case it is
`shutin_as_producing and row[ANY_SHUTIN]`. -/
def is_shutin_flag (cfg : Config) (shutin_as_producing : Bool) (r : TRow) : Bool :=
  if is_configured_shutin cfg then shutin_as_producing && truthy r.anyShutin else false

/-- The is-gap predicate of `gaps_by_production_threshold` (line 322):
the row is part of a gap when `not (is_producing or is_shutin)`. -/
def thrPred (cfg : Config) (shutin_as_producing : Bool) (r : TRow) : Bool :=
  !(truthy r.anyActive || is_shutin_flag cfg shutin_as_producing r)

/-! ## The shared streak-scanning loop

`gaps_by_production_threshold` (production_checker.py lines 303-341) and
`running_timeperiods` (cogcc_checker.py lines 111-148) run the same loop:
per row, if the row satisfies the is-gap predicate the counters grow and a
gap start is recorded if none is open; otherwise an open gap is emitted as
`(gap_start_date, previous_last_day)` and the state resets; after the loop a
still-open gap is emitted with the final row's last day.  `running_timeperiods`
takes the predicate as the `logic` argument; the threshold method computes it
from the row as `thrPred`.  Gap entries are recorded here as month-index
pairs; the stored Python values are exactly `first_day_of_month` of the first
component and `last_day_of_month` of the second (see `gapDates`). -/

/-- Emission of an open gap (lines 328-330, 338-341 of production_checker.py;
lines 129-130, 138-142 of cogcc_checker.py): nothing is emitted when no gap
is open.  `prevLast = none` with an open gap cannot occur: a gap start is
only ever recorded by a processed row, which also sets `previous_last_day`. -/
def closeGap (gapStart prevLast : Option Nat) : List (Nat × Nat) :=
  match gapStart, prevLast with
  | some s, some e => [(s, e)]
  | _, _ => []

/-- The loop of `gaps_by_production_threshold` / `running_timeperiods`.
Returns the emitted gaps and the per-row running day and month counter
values (`running_days_vals` / `running_months_vals`, appended after each
row is processed). -/
def gapScanAux (p : TRow → Bool) (rows : List TRow) (dc mc : Int)
    (gapStart prevLast : Option Nat) : List (Nat × Nat) × List Int × List Int :=
  match rows with
  | [] => (closeGap gapStart prevLast, [], [])
  | r :: rest =>
    if p r then
      let dc2 := dc + (daysInMonthIdx r.month : Int)
      let mc2 := mc + 1
      let res := gapScanAux p rest dc2 mc2 (some (gapStart.getD r.month)) (some r.month)
      (res.1, dc2 :: res.2.1, mc2 :: res.2.2)
    else
      let res := gapScanAux p rest 0 0 none (some r.month)
      (closeGap gapStart prevLast ++ res.1, 0 :: res.2.1, 0 :: res.2.2)

/-- The date pair actually stored for an emitted gap: the first day of the
start month and the last day of the end month. -/
def gapDates (g : Nat × Nat) : Date × Date :=
  (first_day_of_month g.1, last_day_of_month g.2)

/-! ## The days-based scan (`gaps_by_producing_days`, lines 350-473)

The loop reads `max_days_producing` and `min_days_not_producing` per row,
optionally overriding them for shut-in months and months below the
production threshold, and then branches three ways: zero producing days
(whole gap month), partial production, full production.  As written, both
partial-production branches raise `TypeError`:

* line 444 evaluates `last_day - timedelta(days=days_not_producing) + 1`;
  `last_day` is a `datetime.datetime` (from `last_day_of_month`), so the
  trailing `+ 1` adds an `int` to a `datetime`, which Python rejects;
* line 448 evaluates `first_day + timedelta(days=days_not_producing) - 1`;
  `first_day` is the row's pandas Timestamp, and Timestamp minus `int`
  likewise raises `TypeError`.

These are embedded as `Except.error`.  Consequently every reachable gap
start is a row's first-of-month date, so the gap state is a month index
as in `gapScanAux`. -/

/-- The loop of `gaps_by_producing_days` (lines 412-466).  `si` is the
per-row shut-in flag (`is_shutin_flag cfg shutin_as_producing`), `cp` the
effective `consider_production`. -/
def daysScanAux (si : TRow → Bool) (cp : Bool) (rows : List TRow) (dc mc : Int)
    (gapStart prevLast : Option Nat) :
    Except String (List (Nat × Nat) × List Int × List Int) :=
  match rows with
  | [] => .ok (closeGap gapStart prevLast, [], [])
  | r :: rest =>
    let dim : Int := daysInMonthIdx r.month
    -- lines 422-431: shut-in override, then the consider_production override
    let dp : Option Int :=
      if si r then some dim
      else if cp && !truthy r.anyActive then some 0
      else r.daysProducing
    let dnp : Int :=
      if si r then 0
      else if cp && !truthy r.anyActive then dim
      else r.daysNotProducing
    let dc2 := dc + dnp                       -- line 433
    if dp = some 0 then
      -- lines 434-438: no production all month
      let mc2 := mc + 1
      match daysScanAux si cp rest dc2 mc2 (some (gapStart.getD r.month)) (some r.month) with
      | .ok res => .ok (res.1, dc2 :: res.2.1, mc2 :: res.2.2)
      | .error e => .error e
    else if dnp > 0 then
      -- lines 439-450: partial production; both branches raise TypeError
      match gapStart with
      | none => .error ("TypeError: unsupported operand + for datetime and int")
      | some _ => .error ("TypeError: unsupported operand - for Timestamp and int")
    else
      -- lines 451-458: full production all month
      match daysScanAux si cp rest 0 0 none (some r.month) with
      | .ok res => .ok (closeGap gapStart prevLast ++ res.1, 0 :: res.2.1, 0 :: res.2.2)
      | .error e => .error e

/-! ## Gap summarizing (production_checker.py lines 475-501; the identical
computation at cogcc_checker.py lines 150-168) -/

/-- One row of the returned gaps DataFrame. -/
structure GapReportRow where
  start_date : Date
  end_date : Date
  total_months : Int
  total_days : Int
deriving Repr, DecidableEq

/-- Embeds `_gaps_to_dataframe` (production_checker.py lines 475-501) and the
identical summary computation of `running_timeperiods` (cogcc_checker.py
lines 150-168): per gap, `total_months` is
`(end.year - start.year) * 12 + (end.month - start.month) + 1` and
`total_days` is `(end - start).dt.days + 1`; an empty gap list yields an
empty DataFrame. -/
def gaps_to_dataframe (gaps : List (Date × Date)) : List GapReportRow :=
  gaps.map fun g =>
    { start_date := g.1
      end_date := g.2
      total_months := ((g.2.year : Int) - (g.1.year : Int)) * 12
        + ((g.2.month : Int) - (g.1.month : Int)) + 1
      total_days := date_sub_days g.2 g.1 + 1 }

/-- Embeds `running_timeperiods` (cogcc_checker.py lines 74-168) restricted to
its returned DataFrame: the shared scan with the caller-supplied `logic`
predicate, summarized by the totals computation shared with
`_gaps_to_dataframe`. -/
def running_timeperiods (logic : TRow → Bool) (rows : List TRow) : List GapReportRow :=
  gaps_to_dataframe (((gapScanAux logic rows 0 0 none none).1).map gapDates)

/-! ## Raw input records and the per-row helpers -/

/-- One raw input row of the caller's DataFrame, restricted to the cells the
checker reads.  `date` is the absolute month index of the row's parsed date
(`none` embeds an unparseable date value); `none` in the other fields embeds
a missing cell. -/
structure Rec where
  date : Option Nat
  oil : Option Int
  gas : Option Int
  status : Option String
  daysProduced : Option Int
deriving Repr, DecidableEq

/-- Embeds the inner `check_min_prod` of `row_is_producing` (lines 206-216):
an unconfigured column contributes 0; a below-threshold value is zeroed; a
NaN cell compares `False` against the threshold and is returned as is. -/
def check_min_prod (prod_col : Option String) (v : Option Int) (prod_min : Int) : Option Int :=
  match prod_col with
  | none => some 0
  | some _ =>
    match v with
    | none => none
    | some p => some (if p < prod_min then 0 else p)

/-- Embeds `row_is_producing` (lines 189-221): the oil and gas contributions
are summed and compared against 0.  A NaN contribution makes the sum NaN,
and `NaN > 0` is `False` in Python, embedded by the wildcard case. -/
def row_is_producing (cfg : Config) (r : Rec) : Bool :=
  match check_min_prod cfg.oil_prod_col r.oil cfg.oil_prod_min,
      check_min_prod cfg.gas_prod_col r.gas cfg.gas_prod_min with
  | some a, some b => a + b > 0
  | _, _ => false

/-- Embeds `row_is_shutin` (lines 223-240): `False` when no status column is
configured; otherwise membership of the row's status code in the configured
codes (an absent `shutin_codes` acts as the empty list; a missing status
cell is in no list). -/
def row_is_shutin (cfg : Config) (r : Rec) : Bool :=
  match cfg.status_col with
  | none => false
  | some _ =>
    let codes := cfg.shutin_codes.getD []
    match r.status with
    | some s => codes.contains s
    | none => false

/-- Embeds `row_num_unproducing_days` (lines 253-268) for the month with
absolute index `m`: a missing days-produced value yields the full
days-in-month; otherwise the code returns `days_produced - days_in_month`
(line 268 as written; its docstring promises the number of days NOT
produced, which would be `days_in_month - days_produced`). -/
def row_num_unproducing_days (m : Nat) (daysProduced : Option Int) : Int :=
  let days_in_month : Int := daysInMonthIdx m
  match daysProduced with
  | none => days_in_month
  | some d => d - days_in_month

/-! ## The monthly timeline builder (`standardize_dates` and `group_by_month`,
production_checker.py lines 98-187)

As written, this pipeline raises on every input.  Its first statement
(line 105) evaluates `first_day_of_month(df[self.date_col])`, handing the
whole date column to `first_day_of_month`, whose
`datetime(dt.year, dt.month, 1)` reads `.year` on a pandas `Series`; a
`Series` has no `.year` attribute, so `AttributeError` is raised before any
date value, the emptiness of the frame, or the configuration is examined
(when a days column is configured, line 183 calling `DataFrame.apply`
without `axis=1` and lines 153-157 keying the aggregation dict by a column
outside the selection would each also raise).  `standardize_dates` and
`group_by_month_aswritten` below embed that unconditional failure; it is
what the error-handling claim is settled against.

`group_by_month` embeds the element-wise aggregation the pipeline intends,
had the date column been normalized value by value: the pure computation
per row and the aggregation functions (`sum`/`max`/`min` per lines 124-158)
follow the source exactly, including the placeholder rows that
`standardize_dates` concatenates for every month of the range
(lines 107-113): a placeholder has NaN in every non-date cell, so it is
neither producing nor shut-in, contributes nothing to sums, is skipped by
`max` over days produced, and contributes the full days-in-month to the
`min` over days not producing.  This intended-semantics builder backs only
the claims whose conclusions do not rest on the pipeline's failure: the
preservation of the caller's frame and the string/list shut-in-code
equivalence, both of which hold under either reading. -/

def b2i (b : Bool) : Int := if b then 1 else 0

/-- Maximum of a list of values with NaN skipped (`agg` by `'max'`);
`none` when no value is present. -/
def aggMax : List Int → Option Int
  | [] => none
  | a :: l => some (l.foldl max a)

/-- The aggregated timeline row for month `m`: all records of that month
plus the placeholder row for `m`. -/
def aggMonth (cfg : Config) (recs : List Rec) (m : Nat) : TRow :=
  let rs := recs.filter (fun r => r.date = some m)
  { month := m
    anyActive := b2i (rs.any (row_is_producing cfg))
    anyShutin := b2i (rs.any (row_is_shutin cfg))
    numActive := ((rs.filter (row_is_producing cfg)).length : Int)
    numShutin := ((rs.filter (row_is_shutin cfg)).length : Int)
    oilTotal := if cfg.oil_prod_col.isSome then ((rs.filterMap Rec.oil).foldl (· + ·) 0) else 0
    gasTotal := if cfg.gas_prod_col.isSome then ((rs.filterMap Rec.gas).foldl (· + ·) 0) else 0
    daysProducing :=
      if cfg.days_produced_col.isSome then aggMax (rs.filterMap Rec.daysProduced) else none
    daysNotProducing :=
      if cfg.days_produced_col.isSome then
        -- min over the records of the month and the placeholder row, whose
        -- missing days-produced cell yields the full days-in-month
        (rs.map (fun r => row_num_unproducing_days m r.daysProduced)).foldl
          min (daysInMonthIdx m : Int)
      else 0 }

/-- The intended element-wise reading of `standardize_dates` followed by the
grouping of `group_by_month` (lines 98-187): dates are normalized to their
month, with an unparseable date propagating an unhandled `AttributeError`
and an empty record set making `pd.date_range` fail on NaT bounds with an
unhandled `ValueError`; otherwise one aggregated row is produced per month
from the earliest to the latest month present.  The pipeline as actually
written never gets this far: see `group_by_month_aswritten`. -/
def group_by_month (cfg : Config) (recs : List Rec) : Except String (List TRow) :=
  if recs.any (fun r => r.date.isNone) then
    .error ("AttributeError: unparseable date value in date column")
  else
    match recs.filterMap Rec.date with
    | [] => .error ("ValueError: cannot build a date range from an empty frame")
    | d :: ds =>
      let m0 := ds.foldl min d
      let m1 := ds.foldl max d
      .ok ((List.range' m0 (m1 - m0 + 1) 1).map (aggMonth cfg recs))

/-- Embeds `standardize_dates` (lines 98-113) as written: its first
statement (line 105) applies `first_day_of_month` to the whole date column,
and `datetime(dt.year, dt.month, 1)` reads `.year` on a pandas `Series`,
which has no such attribute.  Every call therefore raises `AttributeError`
immediately — for any record set, whatever the configuration, before any
date value or the emptiness of the frame is examined — and the
month-filling `pd.date_range` of lines 107-113 is never reached. -/
def standardize_dates (recs : List Rec) : Except String (List Rec) :=
  .error ("AttributeError: Series object has no attribute year")

/-- Embeds `group_by_month` (lines 160-187) as written: it first calls
`standardize_dates` (line 168), whose unconditional `AttributeError`
propagates, so the aggregation (the `group_by_month` modelled above) is
never performed. -/
def group_by_month_aswritten (cfg : Config) (recs : List Rec) : Except String (List TRow) :=
  match standardize_dates recs with
  | .error e => .error e
  | .ok recs2 => group_by_month cfg recs2

/-! ## The checker object and its mutable state

`ProductionChecker.__init__` (lines 30-73) deep-copies the caller's frame
(line 62), normalizes `shutin_codes`, and builds `prod_df`.  The two gap
methods may, when annotation column names are supplied, assign running
counter columns into `prod_df` (lines 343-347 and 468-472); `df[name] = vals`
replaces the column called `name` if it exists and creates a new one
otherwise.  The state model below carries the grouped rows plus any created
extra columns, and `setColumn` dispatches an assignment on the existing
column names of `prod_df` (the date column, the configured oil/gas columns,
the four aggregate indicator columns, and the two days columns when days
checking is configured).  Replacing the date column would make subsequent
date handling fail in Python; that branch is modelled by the plain value
update and is exercised by no theorem below. -/

structure CheckerState where
  cfg : Config
  prodRows : List TRow
  extraCols : List (String × List Int)
deriving Repr, DecidableEq

/-- Embeds `self.prod_df[name] = vals`. -/
def setColumn (st : CheckerState) (name : String) (vals : List Int) : CheckerState :=
  if name = st.cfg.date_col then
    { st with prodRows := List.zipWith (fun r v => { r with month := v.toNat }) st.prodRows vals }
  else if some name = st.cfg.oil_prod_col then
    { st with prodRows := List.zipWith (fun r v => { r with oilTotal := v }) st.prodRows vals }
  else if some name = st.cfg.gas_prod_col then
    { st with prodRows := List.zipWith (fun r v => { r with gasTotal := v }) st.prodRows vals }
  else if name = "num_active" then
    { st with prodRows := List.zipWith (fun r v => { r with numActive := v }) st.prodRows vals }
  else if name = "num_shutin" then
    { st with prodRows := List.zipWith (fun r v => { r with numShutin := v }) st.prodRows vals }
  else if name = "any_active" then
    { st with prodRows := List.zipWith (fun r v => { r with anyActive := v }) st.prodRows vals }
  else if name = "any_shutin" then
    { st with prodRows := List.zipWith (fun r v => { r with anyShutin := v }) st.prodRows vals }
  else if is_configured_days_produced st.cfg && name = "max_days_producing" then
    { st with prodRows := List.zipWith (fun r v => { r with daysProducing := some v }) st.prodRows vals }
  else if is_configured_days_produced st.cfg && name = "min_days_not_producing" then
    { st with prodRows := List.zipWith (fun r v => { r with daysNotProducing := v }) st.prodRows vals }
  else
    { st with extraCols := (st.extraCols.filter (fun c => c.1 ≠ name)) ++ [(name, vals)] }

/-- The optional annotation assignments shared by both gap methods
(lines 343-347 and 468-472). -/
def annotate (st : CheckerState) (ndc nmc : Option String) (dvals mvals : List Int) :
    CheckerState :=
  let st1 := match ndc with
    | some nm => setColumn st nm dvals
    | none => st
  match nmc with
  | some nm => setColumn st1 nm mvals
  | none => st1

/-- Embeds the method `gaps_by_production_threshold` (lines 270-348): the
shared scan with the threshold predicate, the optional annotation of
`prod_df`, and the summarized gaps DataFrame. -/
def gaps_by_production_threshold (shutin_as_producing : Bool) (ndc nmc : Option String)
    (st : CheckerState) : List GapReportRow × CheckerState :=
  let res := gapScanAux (thrPred st.cfg shutin_as_producing) st.prodRows 0 0 none none
  (gaps_to_dataframe (res.1.map gapDates), annotate st ndc nmc res.2.1 res.2.2)

/-- Embeds the method `gaps_by_producing_days` (lines 350-473).  A raised
`TypeError` propagates before any annotation assignment runs. -/
def gaps_by_producing_days (shutin_as_producing : Bool) (consider_production : Option Bool)
    (ndc nmc : Option String) (st : CheckerState) :
    Except String (List GapReportRow × CheckerState) :=
  let cp := consider_production.getD (is_configured_production st.cfg)
  match daysScanAux (is_shutin_flag st.cfg shutin_as_producing) cp st.prodRows 0 0 none none with
  | .ok res => .ok (gaps_to_dataframe (res.1.map gapDates), annotate st ndc nmc res.2.1 res.2.2)
  | .error e => .error e

/-- The checker object together with the caller's input frame: `caller` is
the DataFrame object the caller passed in, `self_df` is the deep copy made
at line 62 (equal in value, a distinct object, hence a distinct component
that writes to the checker's state never reach). -/
structure PCFull where
  caller : List Rec
  self_df : List Rec
  state : CheckerState
deriving Repr, DecidableEq

/-- Embeds `ProductionChecker.__init__` (lines 30-73) given an
already-assembled `Config` (see `normalize_shutin_codes` for the
`shutin_codes` argument handling it performs). -/
def production_checker_init (cfg : Config) (input : List Rec) : Except String PCFull :=
  match group_by_month cfg input with
  | .ok t =>
    .ok { caller := input, self_df := input
          state := { cfg := cfg, prodRows := t, extraCols := [] } }
  | .error e => .error e

/-- One invocation of a gap-detection method with its parameters. -/
inductive GapOp where
  | thr (sap : Bool) (ndc nmc : Option String)
  | days (sap : Bool) (cp : Option Bool) (ndc nmc : Option String)
deriving Repr, DecidableEq

/-- Effect of one method call on the checker object; a raised `TypeError`
in `gaps_by_producing_days` propagates before any state write. -/
def applyOp (op : GapOp) (pc : PCFull) : PCFull :=
  match op with
  | .thr sap ndc nmc =>
    { pc with state := (gaps_by_production_threshold sap ndc nmc pc.state).2 }
  | .days sap cp ndc nmc =>
    match gaps_by_producing_days sap cp ndc nmc pc.state with
    | .ok res => { pc with state := res.2 }
    | .error _ => pc

/-- Any sequence of gap-detection method calls. -/
def runOps (ops : List GapOp) (pc : PCFull) : PCFull :=
  ops.foldl (fun acc op => applyOp op acc) pc

/-- Assembly of the stored configuration from the `__init__` arguments,
including the `shutin_codes` normalization of lines 69-71. -/
def mkConfig (date_col : String) (oil gas days status : Option String)
    (si : ShutinCodesArg) (omin gmin : Int) : Config :=
  { date_col := date_col
    oil_prod_col := oil
    gas_prod_col := gas
    days_produced_col := days
    status_col := status
    shutin_codes := normalize_shutin_codes si
    oil_prod_min := omin
    gas_prod_min := gmin }

/-! ## Specification-level predicates about scan results -/

/-- A timeline is valid when its rows carry consecutive months starting at
`m0` (the invariant `group_by_month` establishes: one row per month of the
range, in order). -/
def ValidTimeline (m0 : Nat) (rows : List TRow) : Prop :=
  rows.map TRow.month = List.range' m0 rows.length 1

/-- Month `m` lies inside one of the emitted gap intervals. -/
def inGaps (gaps : List (Nat × Nat)) (m : Nat) : Prop :=
  ∃ g ∈ gaps, g.1 ≤ m ∧ m ≤ g.2

instance (gaps : List (Nat × Nat)) (m : Nat) : Decidable (inGaps gaps m) := by
  unfold inGaps; infer_instance

/-- Some row of the timeline carries month `m` and satisfies the is-gap
predicate. -/
def covered (p : TRow → Bool) (rows : List TRow) (m : Nat) : Prop :=
  ∃ r ∈ rows, r.month = m ∧ p r = true

instance (p : TRow → Bool) (rows : List TRow) (m : Nat) : Decidable (covered p rows m) := by
  unfold covered; infer_instance

/-- The emitted intervals are chronologically ordered and pairwise disjoint:
each interval ends strictly before the next one starts. -/
def gapsOrdered (gaps : List (Nat × Nat)) : Prop :=
  List.Chain' (fun a b => a.2 < b.1) gaps

/-- A timeline row without partial production: either no producing days at
all, or no non-producing days. -/
def wholeRow (r : TRow) : Prop :=
  r.daysProducing = some 0 ∨ (r.daysProducing ≠ some 0 ∧ r.daysNotProducing ≤ 0)

instance (r : TRow) : Decidable (wholeRow r) := by
  unfold wholeRow; infer_instance

/-- The column names present in the grouped `prod_df` for a given
configuration (the columns a `df[name] = vals` assignment would replace
rather than create). -/
def prodColNames (cfg : Config) : List String :=
  [cfg.date_col, ("num_active"), ("num_shutin"), ("any_active"), ("any_shutin")]
    ++ (match cfg.oil_prod_col with | some c => [c] | none => [])
    ++ (match cfg.gas_prod_col with | some c => [c] | none => [])
    ++ (if cfg.days_produced_col.isSome then
          [("max_days_producing"), ("min_days_not_producing")] else [])

/-! ## Concrete data used by counterexamples and witnesses -/

/-- A timeline row with the given month, activity flag and days data, all
aggregate totals zero and not shut-in. -/
def mkRow (m : Nat) (act : Int) (dp : Option Int) (dnp : Int) : TRow :=
  { month := m
    anyActive := act
    anyShutin := 0
    numActive := 0
    numShutin := 0
    oilTotal := 0
    gasTotal := 0
    daysProducing := dp
    daysNotProducing := dnp }

/-- January 2021 as an absolute month index. -/
def jan21 : Nat := 2021 * 12

/-- A configuration with no oil, gas, status or days columns. -/
def cfgBare : Config :=
  mkConfig ("FirstOfMonth") none none none none .noneArg 0 0

/-- A configuration with only the days-produced column configured. -/
def cfgDays : Config :=
  mkConfig ("FirstOfMonth") none none (some ("DaysProduced")) none .noneArg 0 0

/-- The claim C1 scenario timeline: a fully producing February 2021, then
March with 21 producing days (10 not producing), April with none, May with
24 producing days (7 not producing). -/
def rowsC1 : List TRow :=
  [mkRow (jan21 + 1) 0 (some 28) 0, mkRow (jan21 + 2) 0 (some 21) 10,
   mkRow (jan21 + 3) 0 (some 0) 30, mkRow (jan21 + 4) 0 (some 24) 7]

/-- Checker state holding the C1 scenario timeline. -/
def stC1 : CheckerState := { cfg := cfgDays, prodRows := rowsC1, extraCols := [] }

/-- An April 2021 without production followed by a May 2021 with partial
production: the open April gap reaches the partial month. -/
def rowsC4 : List TRow :=
  [mkRow (jan21 + 3) 0 (some 0) 30, mkRow (jan21 + 4) 0 (some 24) 7]

/-- Checker state holding the C4 counterexample timeline. -/
def stC4 : CheckerState := { cfg := cfgDays, prodRows := rowsC4, extraCols := [] }

/-- An inactive January 2021 followed by an active February 2021. -/
def rowsJanFeb : List TRow := [mkRow jan21 0 none 0, mkRow (jan21 + 1) 1 none 0]

/-- Checker state holding the inactive-January timeline. -/
def stC7 : CheckerState := { cfg := cfgBare, prodRows := rowsJanFeb, extraCols := [] }

/-- A single raw record for January 2021 with every data cell missing. -/
def recJan : Rec :=
  { date := some jan21, oil := none, gas := none, status := none, daysProduced := none }

/-- A timeline without partial-production months: April 2021 with no
producing days, May 2021 fully producing. -/
def rowsWhole : List TRow :=
  [mkRow (jan21 + 3) 0 (some 0) 30, mkRow (jan21 + 4) 0 (some 31) 0]

/-! ## Lemmas about the shared scan -/

lemma inGaps_append (l1 l2 : List (Nat × Nat)) (m : Nat) :
    inGaps (l1 ++ l2) m ↔ inGaps l1 m ∨ inGaps l2 m := by
  simp only [inGaps, List.mem_append]
  constructor
  · rintro ⟨g, hg | hg, hm⟩
    · exact Or.inl ⟨g, hg, hm⟩
    · exact Or.inr ⟨g, hg, hm⟩
  · rintro (⟨g, hg, hm⟩ | ⟨g, hg, hm⟩)
    · exact ⟨g, Or.inl hg, hm⟩
    · exact ⟨g, Or.inr hg, hm⟩

lemma inGaps_singleton (a b m : Nat) : inGaps [(a, b)] m ↔ a ≤ m ∧ m ≤ b := by
  simp [inGaps]

lemma covered_cons (p : TRow → Bool) (r : TRow) (rest : List TRow) (m : Nat) :
    covered p (r :: rest) m ↔ (r.month = m ∧ p r = true) ∨ covered p rest m := by
  simp [covered]

lemma validTimeline_cons {m0 : Nat} {r : TRow} {rest : List TRow}
    (h : ValidTimeline m0 (r :: rest)) : r.month = m0 ∧ ValidTimeline (m0 + 1) rest := by
  unfold ValidTimeline at h ⊢
  simp only [List.map_cons, List.length_cons, List.range'_succ] at h
  exact ⟨(List.cons.injEq _ _ _ _).mp h |>.1, (List.cons.injEq _ _ _ _).mp h |>.2⟩

lemma gapScanAux_cover (p : TRow → Bool) (rows : List TRow) :
    ∀ m0, ValidTimeline m0 rows → ∀ (dc mc : Int) (m : Nat),
      (∀ s q, s ≤ q → q + 1 = m0 →
        (inGaps (gapScanAux p rows dc mc (some s) (some q)).1 m ↔
          ((s ≤ m ∧ m ≤ q) ∨ covered p rows m)))
      ∧ (∀ pl, inGaps (gapScanAux p rows dc mc none pl).1 m ↔ covered p rows m) := by
  induction rows with
  | nil =>
    intro m0 _ dc mc m
    constructor
    · intro s q hsq hq
      simp [gapScanAux, closeGap, inGaps_singleton, covered]
    · intro pl
      cases pl <;> simp [gapScanAux, closeGap, inGaps, covered]
  | cons r rest ih =>
    intro m0 hv dc mc m
    obtain ⟨hr, hrest⟩ := validTimeline_cons hv
    constructor
    · intro s q hsq hq
      by_cases hp : p r
      · have IH1 := ((ih (m0 + 1) hrest (dc + (daysInMonthIdx r.month : Int)) (mc + 1) m).1
          s r.month (by omega) (by omega))
        simp only [gapScanAux, hp, if_true, Option.getD_some]
        rw [IH1, covered_cons, hr]
        simp only [hp, and_true]
        have harith : (s ≤ m ∧ m ≤ m0) ↔ ((s ≤ m ∧ m ≤ q) ∨ m0 = m) := by omega
        rw [harith]
        tauto
      · have IH2 := (ih (m0 + 1) hrest 0 0 m).2 (some r.month)
        simp only [gapScanAux, hp, if_false, Bool.false_eq_true]
        rw [inGaps_append, IH2, covered_cons, hr]
        simp only [closeGap, inGaps_singleton, hp, Bool.false_eq_true, and_false, false_or]
    · intro pl
      by_cases hp : p r
      · have IH1 := ((ih (m0 + 1) hrest (dc + (daysInMonthIdx r.month : Int)) (mc + 1) m).1
          r.month r.month le_rfl (by omega))
        simp only [gapScanAux, hp, if_true, Option.getD_none]
        rw [IH1, covered_cons, hr]
        simp only [hp, and_true]
        have harith : (m0 ≤ m ∧ m ≤ m0) ↔ m0 = m := by omega
        rw [harith]
      · have IH2 := (ih (m0 + 1) hrest 0 0 m).2 (some r.month)
        simp only [gapScanAux, hp, if_false, Bool.false_eq_true]
        rw [inGaps_append, IH2, covered_cons, hr]
        cases pl <;>
          simp only [closeGap, inGaps, List.not_mem_nil, false_and, exists_false, hp,
            Bool.false_eq_true, and_false, false_or, exists_and_left]

lemma gapScanAux_struct (p : TRow → Bool) (rows : List TRow) :
    ∀ m0, ValidTimeline m0 rows → ∀ (dc mc : Int),
      (∀ s q, s ≤ q → q + 1 = m0 →
        (gapsOrdered (gapScanAux p rows dc mc (some s) (some q)).1 ∧
         (∀ g ∈ (gapScanAux p rows dc mc (some s) (some q)).1,
            s ≤ g.1 ∧ g.1 ≤ g.2 ∧ g.2 < m0 + rows.length) ∧
         (∀ g ∈ (gapScanAux p rows dc mc (some s) (some q)).1,
            g.2 + 1 = m0 + rows.length ∨ ∃ r ∈ rows, r.month = g.2 + 1 ∧ p r = false)))
      ∧ (∀ pl,
         gapsOrdered (gapScanAux p rows dc mc none pl).1 ∧
         (∀ g ∈ (gapScanAux p rows dc mc none pl).1,
            m0 ≤ g.1 ∧ g.1 ≤ g.2 ∧ g.2 < m0 + rows.length) ∧
         (∀ g ∈ (gapScanAux p rows dc mc none pl).1,
            g.2 + 1 = m0 + rows.length ∨ ∃ r ∈ rows, r.month = g.2 + 1 ∧ p r = false)) := by
  induction rows with
  | nil =>
    intro m0 _ dc mc
    constructor
    · intro s q hsq hq
      refine ⟨?_, ?_, ?_⟩
      · simp [gapScanAux, closeGap, gapsOrdered]
      · intro g hg
        simp only [gapScanAux, closeGap, List.mem_singleton] at hg
        subst hg
        simp only [List.length_nil]
        omega
      · intro g hg
        simp only [gapScanAux, closeGap, List.mem_singleton] at hg
        subst hg
        simp only [List.length_nil]
        omega
    · intro pl
      refine ⟨?_, ?_, ?_⟩ <;> cases pl <;> simp [gapScanAux, closeGap, gapsOrdered]
  | cons r rest ih =>
    intro m0 hv dc mc
    obtain ⟨hr, hrest⟩ := validTimeline_cons hv
    have hlen : (r :: rest).length = rest.length + 1 := rfl
    constructor
    · intro s q hsq hq
      by_cases hp : p r
      · have IH := ((ih (m0 + 1) hrest (dc + (daysInMonthIdx r.month : Int)) (mc + 1)).1
          s r.month (by omega) (by omega))
        simp only [gapScanAux, hp, if_true, Option.getD_some]
        refine ⟨IH.1, ?_, ?_⟩
        · intro g hg
          have := IH.2.1 g hg
          simp only [List.length_cons]
          omega
        · intro g hg
          rcases IH.2.2 g hg with h1 | ⟨r2, hr2, hm2, hp2⟩
          · left
            simp only [List.length_cons]
            omega
          · exact Or.inr ⟨r2, List.mem_cons_of_mem r hr2, hm2, hp2⟩
      · have IH := (ih (m0 + 1) hrest 0 0).2 (some r.month)
        simp only [gapScanAux, hp, if_false, Bool.false_eq_true, closeGap,
          List.singleton_append]
        refine ⟨?_, ?_, ?_⟩
        · refine List.chain'_cons'.mpr ⟨?_, IH.1⟩
          intro b hb
          have hbm := IH.2.1 b (List.mem_of_mem_head? hb)
          omega
        · intro g hg
          rcases List.mem_cons.mp hg with hg1 | hg2
          · subst hg1
            simp only [List.length_cons]
            omega
          · have := IH.2.1 g hg2
            simp only [List.length_cons]
            omega
        · intro g hg
          rcases List.mem_cons.mp hg with hg1 | hg2
          · subst hg1
            exact Or.inr ⟨r, List.mem_cons_self r rest, by omega, by simpa using hp⟩
          · rcases IH.2.2 g hg2 with h1 | ⟨r2, hr2, hm2, hp2⟩
            · left
              simp only [List.length_cons]
              omega
            · exact Or.inr ⟨r2, List.mem_cons_of_mem r hr2, hm2, hp2⟩
    · intro pl
      by_cases hp : p r
      · have IH := ((ih (m0 + 1) hrest (dc + (daysInMonthIdx r.month : Int)) (mc + 1)).1
          r.month r.month le_rfl (by omega))
        simp only [gapScanAux, hp, if_true, Option.getD_none]
        refine ⟨IH.1, ?_, ?_⟩
        · intro g hg
          have := IH.2.1 g hg
          simp only [List.length_cons]
          omega
        · intro g hg
          rcases IH.2.2 g hg with h1 | ⟨r2, hr2, hm2, hp2⟩
          · left
            simp only [List.length_cons]
            omega
          · exact Or.inr ⟨r2, List.mem_cons_of_mem r hr2, hm2, hp2⟩
      · have IH := (ih (m0 + 1) hrest 0 0).2 (some r.month)
        have hclose : closeGap none pl = [] := by cases pl <;> rfl
        simp only [gapScanAux, hp, if_false, Bool.false_eq_true, hclose, List.nil_append]
        refine ⟨IH.1, ?_, ?_⟩
        · intro g hg
          have := IH.2.1 g hg
          simp only [List.length_cons]
          omega
        · intro g hg
          rcases IH.2.2 g hg with h1 | ⟨r2, hr2, hm2, hp2⟩
          · left
            simp only [List.length_cons]
            omega
          · exact Or.inr ⟨r2, List.mem_cons_of_mem r hr2, hm2, hp2⟩

lemma daysScanAux_whole (rows : List TRow) :
    ∀ (h : ∀ r ∈ rows, wholeRow r) (dc mc dc2 mc2 : Int) (gs pl : Option Nat),
      (daysScanAux (fun _ => false) false rows dc mc gs pl).map (fun t => t.1) =
        .ok ((gapScanAux (fun r => r.daysProducing == some 0) rows dc2 mc2 gs pl).1) := by
  induction rows with
  | nil =>
    intro _ dc mc dc2 mc2 gs pl
    rfl
  | cons r rest ih =>
    intro h dc mc dc2 mc2 gs pl
    have hrest : ∀ r2 ∈ rest, wholeRow r2 := fun r2 hr2 => h r2 (List.mem_cons_of_mem r hr2)
    rcases h r (List.mem_cons_self r rest) with hdp | ⟨hdp, hdnp⟩
    · have hrec := ih hrest (dc + r.daysNotProducing) (mc + 1)
        (dc2 + (daysInMonthIdx r.month : Int)) (mc2 + 1)
        (some (gs.getD r.month)) (some r.month)
      simp only [daysScanAux, gapScanAux, Bool.false_and, Bool.false_eq_true, if_false,
        hdp, if_true, beq_self_eq_true]
      cases hres : daysScanAux (fun _ => false) false rest (dc + r.daysNotProducing)
          (mc + 1) (some (gs.getD r.month)) (some r.month) with
      | ok res =>
        rw [hres] at hrec
        simpa using hrec
      | error e =>
        rw [hres] at hrec
        exact absurd hrec (by simp [Except.map])
    · have hrec := ih hrest 0 0 0 0 none (some r.month)
      have hdpb : (r.daysProducing == some 0) = false := by
        simpa using hdp
      have hdnp2 : ¬ (r.daysNotProducing > 0) := by omega
      simp only [daysScanAux, gapScanAux, Bool.false_and, Bool.false_eq_true, if_false,
        hdp, hdpb, hdnp2, if_true]
      cases hres : daysScanAux (fun _ => false) false rest 0 0 none (some r.month) with
      | ok res =>
        rw [hres] at hrec
        simp only [Except.map] at hrec ⊢
        rw [Except.ok.injEq] at hrec
        rw [hrec]
      | error e =>
        rw [hres] at hrec
        exact absurd hrec (by simp [Except.map])

/-! ## Lemmas about the checker state and dates -/

lemma setColumn_cfg (st : CheckerState) (n : String) (v : List Int) :
    (setColumn st n v).cfg = st.cfg := by
  unfold setColumn
  split_ifs <;> rfl

lemma setColumn_fresh (st : CheckerState) (n : String) (v : List Int)
    (h : n ∉ prodColNames st.cfg) : (setColumn st n v).prodRows = st.prodRows := by
  unfold setColumn
  split_ifs with c1 c2 c3 c4 c5 c6 c7 c8 c9
  · exact absurd (show n ∈ prodColNames st.cfg by rw [c1]; simp [prodColNames]) h
  · exact absurd (show n ∈ prodColNames st.cfg by simp [prodColNames, ← c2]) h
  · exact absurd (show n ∈ prodColNames st.cfg by simp [prodColNames, ← c3]) h
  · exact absurd (show n ∈ prodColNames st.cfg by rw [c4]; simp [prodColNames]) h
  · exact absurd (show n ∈ prodColNames st.cfg by rw [c5]; simp [prodColNames]) h
  · exact absurd (show n ∈ prodColNames st.cfg by rw [c6]; simp [prodColNames]) h
  · exact absurd (show n ∈ prodColNames st.cfg by rw [c7]; simp [prodColNames]) h
  · rcases Bool.and_eq_true_iff.mp c8 with ⟨cd, ce⟩
    have cd2 : st.cfg.days_produced_col.isSome = true := cd
    exact absurd (show n ∈ prodColNames st.cfg by
      rw [of_decide_eq_true ce]; simp [prodColNames, cd2]) h
  · rcases Bool.and_eq_true_iff.mp c9 with ⟨cd, ce⟩
    have cd2 : st.cfg.days_produced_col.isSome = true := cd
    exact absurd (show n ∈ prodColNames st.cfg by
      rw [of_decide_eq_true ce]; simp [prodColNames, cd2]) h
  · rfl

lemma annotate_cfg (st : CheckerState) (ndc nmc : Option String) (d m : List Int) :
    (annotate st ndc nmc d m).cfg = st.cfg := by
  unfold annotate
  cases ndc <;> cases nmc <;> simp [setColumn_cfg]

lemma annotate_fresh (st : CheckerState) (ndc nmc : Option String) (d m : List Int)
    (h1 : ∀ n, ndc = some n → n ∉ prodColNames st.cfg)
    (h2 : ∀ n, nmc = some n → n ∉ prodColNames st.cfg) :
    (annotate st ndc nmc d m).prodRows = st.prodRows := by
  unfold annotate
  cases ndc with
  | none =>
    cases nmc with
    | none => rfl
    | some nm => exact setColumn_fresh st nm m (h2 nm rfl)
  | some nd =>
    cases nmc with
    | none => exact setColumn_fresh st nd d (h1 nd rfl)
    | some nm =>
      have e1 : (setColumn st nd d).prodRows = st.prodRows := setColumn_fresh st nd d (h1 nd rfl)
      have e2 : (setColumn st nd d).cfg = st.cfg := setColumn_cfg st nd d
      calc (setColumn (setColumn st nd d) nm m).prodRows
          = (setColumn st nd d).prodRows := setColumn_fresh _ nm m (by rw [e2]; exact h2 nm rfl)
        _ = st.prodRows := e1

lemma thr_gaps_only_rows (st st2 : CheckerState) (sap : Bool) (ndc nmc : Option String)
    (h1 : st2.cfg = st.cfg) (h2 : st2.prodRows = st.prodRows) :
    (gaps_by_production_threshold sap ndc nmc st2).1 =
      (gaps_by_production_threshold sap ndc nmc st).1 := by
  unfold gaps_by_production_threshold
  rw [h1, h2]

lemma days_gaps_only_rows (st st2 : CheckerState) (sap : Bool) (cp : Option Bool)
    (ndc nmc : Option String) (h1 : st2.cfg = st.cfg) (h2 : st2.prodRows = st.prodRows) :
    (gaps_by_producing_days sap cp ndc nmc st2).map Prod.fst =
      (gaps_by_producing_days sap cp ndc nmc st).map Prod.fst := by
  simp only [gaps_by_producing_days]
  rw [h1, h2]
  cases hres : daysScanAux (is_shutin_flag st.cfg sap)
      (cp.getD (is_configured_production st.cfg)) st.prodRows 0 0 none none <;>
    simp [hres, Except.map]

lemma one_le_daysInMonthIdx (m : Nat) : 1 ≤ daysInMonthIdx m := by
  unfold daysInMonthIdx get_days_in_month
  split_ifs <;> omega

lemma month_le_dateLe {m1 m2 : Nat} (h : m1 ≤ m2) :
    dateLe (first_day_of_month m1) (last_day_of_month m2) := by
  have hd := one_le_daysInMonthIdx m2
  unfold dateLe first_day_of_month last_day_of_month yearOf monthOf
  simp only
  omega

/-! ## The claims -/

/-- C1: the claim says that on the Timeline with a fully producing February,
March 2021 with days_producing = 21 (31-day month), April with 0 and May
with 24, `gaps_by_producing_days` emits a single gap March 11 - May 24 with
total_days = 64, via the stated partial-month rules.  On the code the first
partial-production month (March, days_not_producing = 10, no gap open)
evaluates `last_day - timedelta(days=days_not_producing) + 1` (line 444),
which adds an `int` to a `datetime` and raises `TypeError`: no gap is
emitted at all.  This theorem evaluates the embedded method at that
timeline. -/
theorem claim_C1 :
    gaps_by_producing_days false none none none stC1 =
      .error ("TypeError: unsupported operand + for datetime and int") := by
  rfl

/-- C2: the claim says the derived days_not_producing equals days-in-month
minus days_producing (and the full days-in-month when nothing is reported).
`row_num_unproducing_days` (line 268) instead returns
`days_produced - days_in_month`: for March 2021 (31 days) with 21 days
produced it yields -10 where its own docstring and the claim require 10;
the no-data default of days-in-month does hold. -/
theorem claim_C2 :
    row_num_unproducing_days (2021 * 12 + 2) (some 21) = -10 ∧
    ¬ (row_num_unproducing_days (2021 * 12 + 2) (some 21) = (10 : Int)) ∧
    row_num_unproducing_days (2021 * 12 + 2) none = 31 := by
  refine ⟨rfl, by decide, rfl⟩

/-- C3: for every valid Timeline, the gaps returned by
`gaps_by_production_threshold` are chronologically ordered and pairwise
disjoint, lie within the Timeline range with start at most end, a month of
the range lies in a gap exactly when its row fails the production test
(so the gaps plus the non-gap months exactly cover the range at month
granularity), and every emitted interval runs from the first day of its
start month to the last day of its end month with start_date at most
end_date. -/
theorem claim_C3 (cfg : Config) (sap : Bool) (m0 : Nat) (rows : List TRow)
    (hv : ValidTimeline m0 rows) :
    gapsOrdered (gapScanAux (thrPred cfg sap) rows 0 0 none none).1 ∧
    (∀ g ∈ (gapScanAux (thrPred cfg sap) rows 0 0 none none).1,
      m0 ≤ g.1 ∧ g.1 ≤ g.2 ∧ g.2 < m0 + rows.length) ∧
    (∀ m, m0 ≤ m → m < m0 + rows.length →
      (inGaps (gapScanAux (thrPred cfg sap) rows 0 0 none none).1 m ↔
        covered (thrPred cfg sap) rows m)) ∧
    (∀ row ∈ (gaps_by_production_threshold sap none none
        { cfg := cfg, prodRows := rows, extraCols := [] }).1,
      row.start_date.day = 1 ∧
      row.end_date.day = get_days_in_month row.end_date.year row.end_date.month ∧
      dateLe row.start_date row.end_date) := by
  have hs := (gapScanAux_struct (thrPred cfg sap) rows m0 hv 0 0).2 none
  refine ⟨hs.1, hs.2.1, ?_, ?_⟩
  · intro m _ _
    exact (gapScanAux_cover (thrPred cfg sap) rows m0 hv 0 0 m).2 none
  · intro row hrow
    simp only [gaps_by_production_threshold, gaps_to_dataframe, List.map_map,
      List.mem_map, Function.comp] at hrow
    obtain ⟨g, hg, rfl⟩ := hrow
    have hb := hs.2.1 g hg
    exact ⟨rfl, rfl, month_le_dateLe hb.2.1⟩

/-- C3 witness: the theorem applied to the inactive-January timeline. -/
theorem claim_C3_witness :
    gapsOrdered (gapScanAux (thrPred cfgBare false) rowsJanFeb 0 0 none none).1 ∧
    (∀ g ∈ (gapScanAux (thrPred cfgBare false) rowsJanFeb 0 0 none none).1,
      jan21 ≤ g.1 ∧ g.1 ≤ g.2 ∧ g.2 < jan21 + rowsJanFeb.length) ∧
    (∀ m, jan21 ≤ m → m < jan21 + rowsJanFeb.length →
      (inGaps (gapScanAux (thrPred cfgBare false) rowsJanFeb 0 0 none none).1 m ↔
        covered (thrPred cfgBare false) rowsJanFeb m)) ∧
    (∀ row ∈ (gaps_by_production_threshold false none none
        { cfg := cfgBare, prodRows := rowsJanFeb, extraCols := [] }).1,
      row.start_date.day = 1 ∧
      row.end_date.day = get_days_in_month row.end_date.year row.end_date.month ∧
      dateLe row.start_date row.end_date) :=
  claim_C3 cfgBare false jan21 rowsJanFeb rfl

/-- C4 counterexample: the claim says no gap-detection algorithm ever drops
a gap and that a scan ending with an open streak emits it with the final
row's last day.  For `gaps_by_producing_days` on an April 2021 without
production followed by a partially producing May, the open April gap is
never emitted: the partial-month close at line 448 evaluates
`first_day + timedelta(days=days_not_producing) - 1`, subtracting an `int`
from a Timestamp, and the raised `TypeError` aborts the scan. -/
theorem counterexample_C4 :
    gaps_by_producing_days false none none none stC4 =
      .error ("TypeError: unsupported operand - for Timestamp and int") := by
  rfl

/-- C4 amended: in the shared streak loop of `gaps_by_production_threshold`
and `running_timeperiods`, every month whose row satisfies the is-gap
predicate lies in an emitted gap (none is dropped, including gaps touching
the first or last month), every emitted gap consists of predicate-satisfying
months, and a gap either ends at the last month of the Timeline (closed by
the end of the scan with the final row's last day) or its end month is
immediately followed by a row failing the predicate (closed with the
previous row's last day).  `gaps_by_producing_days` obeys the same rule on
timelines without partial-production months, where its loop agrees with the
shared loop under the predicate `days_producing == 0`; on partial months it
raises `TypeError` instead (see the counterexample). -/
theorem claim_C4 (p : TRow → Bool) (m0 : Nat) (rows : List TRow) (hv : ValidTimeline m0 rows)
    (rows2 : List TRow) (hw : ∀ r ∈ rows2, wholeRow r) :
    (∀ r ∈ rows, p r = true → inGaps (gapScanAux p rows 0 0 none none).1 r.month) ∧
    (∀ g ∈ (gapScanAux p rows 0 0 none none).1,
      (∀ m, g.1 ≤ m → m ≤ g.2 → covered p rows m) ∧
      (g.2 + 1 = m0 + rows.length ∨ ∃ r ∈ rows, r.month = g.2 + 1 ∧ p r = false)) ∧
    ((daysScanAux (fun _ => false) false rows2 0 0 none none).map (fun t => t.1) =
      .ok ((gapScanAux (fun r => r.daysProducing == some 0) rows2 0 0 none none).1)) := by
  refine ⟨?_, ?_, daysScanAux_whole rows2 hw 0 0 0 0 none none⟩
  · intro r hr hp
    exact ((gapScanAux_cover p rows m0 hv 0 0 r.month).2 none).mpr ⟨r, hr, rfl, hp⟩
  · intro g hg
    constructor
    · intro m hm1 hm2
      exact ((gapScanAux_cover p rows m0 hv 0 0 m).2 none).mp ⟨g, hg, hm1, hm2⟩
    · exact ((gapScanAux_struct p rows m0 hv 0 0).2 none).2.2 g hg

/-- C4 witness: the amended theorem applied to the inactive-January timeline
and the whole-month April/May timeline. -/
theorem claim_C4_witness :
    (∀ r ∈ rowsJanFeb, thrPred cfgBare false r = true →
      inGaps (gapScanAux (thrPred cfgBare false) rowsJanFeb 0 0 none none).1 r.month) ∧
    (∀ g ∈ (gapScanAux (thrPred cfgBare false) rowsJanFeb 0 0 none none).1,
      (∀ m, g.1 ≤ m → m ≤ g.2 → covered (thrPred cfgBare false) rowsJanFeb m) ∧
      (g.2 + 1 = jan21 + rowsJanFeb.length ∨
        ∃ r ∈ rowsJanFeb, r.month = g.2 + 1 ∧ thrPred cfgBare false r = false)) ∧
    ((daysScanAux (fun _ => false) false rowsWhole 0 0 none none).map (fun t => t.1) =
      .ok ((gapScanAux (fun r => r.daysProducing == some 0) rowsWhole 0 0 none none).1)) :=
  claim_C4 (thrPred cfgBare false) jan21 rowsJanFeb rfl rowsWhole (by decide)

/-- C5: every row of the report produced by `_gaps_to_dataframe` (and by the
identical summary computation of `running_timeperiods`) satisfies
`total_days = (end_date - start_date).days + 1` and
`total_months = (end.year * 12 + end.month) - (start.year * 12 + start.month) + 1`,
and an empty gap list yields an empty report rather than an error. -/
theorem claim_C5 (gaps : List (Date × Date)) (row : GapReportRow)
    (h : row ∈ gaps_to_dataframe gaps) :
    gaps_to_dataframe [] = [] ∧
    row.total_days = date_sub_days row.end_date row.start_date + 1 ∧
    row.total_months = ((row.end_date.year : Int) * 12 + (row.end_date.month : Int))
      - ((row.start_date.year : Int) * 12 + (row.start_date.month : Int)) + 1 := by
  refine ⟨rfl, ?_⟩
  obtain ⟨g, _, rfl⟩ := List.mem_map.mp h
  refine ⟨rfl, ?_⟩
  simp only [gaps_to_dataframe]
  ring

/-- C5 witness: the theorem applied to the gap February 1 - March 31, 2021
(59 days, 2 months). -/
theorem claim_C5_witness :
    gaps_to_dataframe [] = [] ∧
    ({ start_date := { year := 2021, month := 2, day := 1 }
       end_date := { year := 2021, month := 3, day := 31 }
       total_months := 2
       total_days := 59 } : GapReportRow).total_days =
      date_sub_days { year := 2021, month := 3, day := 31 } { year := 2021, month := 2, day := 1 }
        + 1 ∧
    ({ start_date := { year := 2021, month := 2, day := 1 }
       end_date := { year := 2021, month := 3, day := 31 }
       total_months := 2
       total_days := 59 } : GapReportRow).total_months =
      ((2021 : Int) * 12 + (3 : Int)) - ((2021 : Int) * 12 + (2 : Int)) + 1 :=
  claim_C5 [({ year := 2021, month := 2, day := 1 }, { year := 2021, month := 3, day := 31 })]
    { start_date := { year := 2021, month := 2, day := 1 }
      end_date := { year := 2021, month := 3, day := 31 }
      total_months := 2
      total_days := 59 } (by decide)

/-- C6 counterexample: the claim says building the Timeline fails with
`ConfigurationError` when neither an oil, gas nor status column is
configured.  No `ConfigurationError` (nor `DataError` nor
`EmptyInputError`) class or raise exists anywhere in the code.  On a valid
single-record input with no aggregation columns configured, the build
instead aborts with the unhandled `AttributeError` that line 105 raises on
every input — and the identical error arises with a days column configured,
showing the failure is not the configuration check the claim describes. -/
theorem counterexample_C6 :
    group_by_month_aswritten cfgBare [recJan] =
      .error ("AttributeError: Series object has no attribute year") ∧
    group_by_month_aswritten cfgDays [recJan] =
      .error ("AttributeError: Series object has no attribute year") :=
  ⟨rfl, rfl⟩

/-- C6 amended: building the Timeline performs no validation and the code
defines no `ConfigurationError`, `DataError` or `EmptyInputError`.
Instead, every build attempt — for every configuration and every record
set, whether empty, unparseable or fully valid — aborts with the same
unhandled `AttributeError`, raised at line 105 where `first_day_of_month`
is applied to the whole date column (a pandas `Series` has no `.year`
attribute).  The claimed error taxonomy therefore never arises, and no
condition of the input selects among errors. -/
theorem claim_C6 (cfg : Config) (recs : List Rec) :
    group_by_month_aswritten cfg recs =
      .error ("AttributeError: Series object has no attribute year") :=
  rfl

/-- C7 counterexample: the claim says that for every choice of parameters,
running the same gap-detection algorithm twice yields identical gap lists.
Requesting the running-days annotation under the column name `any_active`
overwrites the aggregate activity column of `prod_df` with integer counter
values (`df[new_days_col] = running_days_vals`), so on the
inactive-January/active-February timeline the first run reports the January
gap while the second run, reading the overwritten truthy counter 31 for
January and 0 for February, reports February instead. -/
theorem counterexample_C7 :
    ¬ ((gaps_by_production_threshold false (some ("any_active")) none
          ((gaps_by_production_threshold false (some ("any_active")) none stC7).2)).1 =
        (gaps_by_production_threshold false (some ("any_active")) none stC7).1) := by
  decide

/-- C7 amended: provided the requested annotation column names (if any) are
not among the existing columns of `prod_df`, running the same gap-detection
algorithm twice yields the same gap list: the threshold method run on its
own post-state reproduces its gaps, and whenever the days method returns a
gap list and a post-state, rerunning it on that post-state returns the same
gap list (and when it raises, the state is unchanged and a rerun raises
identically, the two runs again agreeing). -/
theorem claim_C7 (st : CheckerState) (sap : Bool) (cp : Option Bool)
    (ndc nmc : Option String)
    (h1 : ∀ n, ndc = some n → n ∉ prodColNames st.cfg)
    (h2 : ∀ n, nmc = some n → n ∉ prodColNames st.cfg) :
    ((gaps_by_production_threshold sap ndc nmc
        ((gaps_by_production_threshold sap ndc nmc st).2)).1 =
      (gaps_by_production_threshold sap ndc nmc st).1) ∧
    (∀ gl st2, gaps_by_producing_days sap cp ndc nmc st = .ok (gl, st2) →
      (gaps_by_producing_days sap cp ndc nmc st2).map Prod.fst = .ok gl) := by
  constructor
  · apply thr_gaps_only_rows
    · exact annotate_cfg st ndc nmc _ _
    · exact annotate_fresh st ndc nmc _ _ h1 h2
  · intro gl st2 hok
    have hscan := hok
    simp only [gaps_by_producing_days] at hscan
    cases hres : daysScanAux (is_shutin_flag st.cfg sap)
        (cp.getD (is_configured_production st.cfg)) st.prodRows 0 0 none none with
    | error e =>
      rw [hres] at hscan
      exact absurd hscan (by simp)
    | ok res =>
      rw [hres] at hscan
      have hgl : gaps_to_dataframe (res.1.map gapDates) = gl := by
        have := (Except.ok.injEq _ _).mp hscan
        exact congrArg Prod.fst this
      have hst2 : annotate st ndc nmc res.2.1 res.2.2 = st2 := by
        have := (Except.ok.injEq _ _).mp hscan
        exact congrArg Prod.snd this
      have hcfg : st2.cfg = st.cfg := by rw [← hst2]; exact annotate_cfg st ndc nmc _ _
      have hrows : st2.prodRows = st.prodRows := by
        rw [← hst2]; exact annotate_fresh st ndc nmc _ _ h1 h2
      have := days_gaps_only_rows st st2 sap cp ndc nmc hcfg hrows
      rw [this, hok]
      simp [Except.map, hgl]

/-- C7 witness: the amended theorem applied to the inactive-January state
with no annotation columns requested. -/
theorem claim_C7_witness :
    ((gaps_by_production_threshold false none none
        ((gaps_by_production_threshold false none none stC7).2)).1 =
      (gaps_by_production_threshold false none none stC7).1) ∧
    (∀ gl st2, gaps_by_producing_days false none none none stC7 = .ok (gl, st2) →
      (gaps_by_producing_days false none none none st2).map Prod.fst = .ok gl) :=
  claim_C7 stC7 false none none none (fun n h => by cases h) (fun n h => by cases h)

/-- C8: the caller's input table is never mutated: `__init__` deep-copies
the frame (line 62), the grouped `prod_df` is a fresh object, and the
annotation assignments of the gap methods write only into `prod_df` — so
after constructing the checker and running any sequence of gap-detection
method calls with any parameters, the caller's table is unchanged. -/
theorem claim_C8 (cfg : Config) (input : List Rec) (pc : PCFull) (ops : List GapOp)
    (h : production_checker_init cfg input = .ok pc) :
    (runOps ops pc).caller = input := by
  have hinit : pc.caller = input := by
    simp only [production_checker_init] at h
    cases hgb : group_by_month cfg input with
    | ok t =>
      rw [hgb] at h
      have := (Except.ok.injEq _ _).mp h
      rw [← this]
    | error e =>
      rw [hgb] at h
      exact absurd h (by simp)
  have hstep : ∀ (op : GapOp) (pc2 : PCFull), (applyOp op pc2).caller = pc2.caller := by
    intro op pc2
    cases op with
    | thr sap ndc nmc => rfl
    | days sap cp ndc nmc =>
      simp only [applyOp]
      cases hres : gaps_by_producing_days sap cp ndc nmc pc2.state <;> rfl
  rw [← hinit]
  clear h hinit
  induction ops generalizing pc with
  | nil => rfl
  | cons op rest ih =>
    simp only [runOps, List.foldl_cons] at ih ⊢
    rw [ih (applyOp op pc), hstep op pc]

/-- C8 witness: the theorem applied to the bare configuration, the single
January record, and one threshold call followed by one days call. -/
theorem claim_C8_witness :
    (runOps [GapOp.thr false none none, GapOp.days false none none none]
      { caller := [recJan], self_df := [recJan]
        state := { cfg := cfgBare
                   prodRows := [{ month := jan21, anyActive := 0, anyShutin := 0,
                                  numActive := 0, numShutin := 0, oilTotal := 0, gasTotal := 0,
                                  daysProducing := none, daysNotProducing := 0 }]
                   extraCols := [] } }).caller = [recJan] :=
  claim_C8 cfgBare [recJan] _ [GapOp.thr false none none, GapOp.days false none none none] rfl

/-- C9: when shut-in checking is not configured (`is_configured_shutin` is
false because the status column or the shut-in code list is absent), the
`shutin_as_producing` parameter has no effect: both gap methods return the
same result with it set to true as with it set to false. -/
theorem claim_C9 (st : CheckerState) (cp : Option Bool) (ndc nmc : Option String)
    (h : is_configured_shutin st.cfg = false) :
    gaps_by_production_threshold true ndc nmc st =
      gaps_by_production_threshold false ndc nmc st ∧
    gaps_by_producing_days true cp ndc nmc st =
      gaps_by_producing_days false cp ndc nmc st := by
  have hsi : is_shutin_flag st.cfg true = is_shutin_flag st.cfg false := by
    funext r
    simp [is_shutin_flag, h]
  have hpred : thrPred st.cfg true = thrPred st.cfg false := by
    funext r
    simp [thrPred, hsi]
  constructor
  · simp only [gaps_by_production_threshold, hpred]
  · simp only [gaps_by_producing_days, hsi]

/-- C9 witness: the theorem applied to the inactive-January state, whose
configuration has neither a status column nor shut-in codes. -/
theorem claim_C9_witness :
    gaps_by_production_threshold true none none stC7 =
      gaps_by_production_threshold false none none stC7 ∧
    gaps_by_producing_days true none none none stC7 =
      gaps_by_producing_days false none none none stC7 :=
  claim_C9 stC7 none none none rfl

/-- C10: passing a single string as `shutin_codes` behaves identically to
passing a one-element list containing that string: the stored
configurations coincide, and so do the built Timeline and the gap lists of
both methods for any inputs and parameters. -/
theorem claim_C10 (c : String) (d : String) (oc gc dpc sc : Option String)
    (omin gmin : Int) (recs : List Rec) (rows : List TRow) (ex : List (String × List Int))
    (sap : Bool) (cp : Option Bool) (ndc nmc : Option String) :
    mkConfig d oc gc dpc sc (.str c) omin gmin =
      mkConfig d oc gc dpc sc (.list [c]) omin gmin ∧
    production_checker_init (mkConfig d oc gc dpc sc (.str c) omin gmin) recs =
      production_checker_init (mkConfig d oc gc dpc sc (.list [c]) omin gmin) recs ∧
    gaps_by_production_threshold sap ndc nmc
        { cfg := mkConfig d oc gc dpc sc (.str c) omin gmin, prodRows := rows, extraCols := ex } =
      gaps_by_production_threshold sap ndc nmc
        { cfg := mkConfig d oc gc dpc sc (.list [c]) omin gmin, prodRows := rows,
          extraCols := ex } ∧
    gaps_by_producing_days sap cp ndc nmc
        { cfg := mkConfig d oc gc dpc sc (.str c) omin gmin, prodRows := rows, extraCols := ex } =
      gaps_by_producing_days sap cp ndc nmc
        { cfg := mkConfig d oc gc dpc sc (.list [c]) omin gmin, prodRows := rows,
          extraCols := ex } :=
  ⟨rfl, rfl, rfl, rfl⟩

end DataTools
